import Mathlib

/-!
Verification of the calculation core of the Hydro-Project-Calculation-App
(`src/app.py`): unit converters, power formulas, penstock sizer and turbine
advisor. Exact arithmetic (`ℚ`) models the converters, power formulas and
the turbine advisor; the penstock sizer, which calls `math.sqrt` on a real
expression involving `π`, is modelled over `ℝ`, with `math.sqrt`'s
`ValueError` on negative arguments made explicit through `Except`.
-/

/-- `convert_discharge` from `src/app.py` lines 5-11: convert discharge to
m³/s, branching on the exact unit string, with a pass-through fallback. -/
def convert_discharge (value : ℚ) (unit : String) : ℚ :=
  if unit = "cusec (ft³/s)" then value * 0.0283168
  else if unit = "m³/s" then value
  else value

/-- `convert_velocity` from `src/app.py` lines 13-19: convert velocity to
m/s, branching on the exact unit string, with a pass-through fallback. -/
def convert_velocity (value : ℚ) (unit : String) : ℚ :=
  if unit = "ft/s" then value * 0.3048
  else if unit = "m/s" then value
  else value

/-- `convert_head` from `src/app.py` lines 21-27: convert head to meters,
branching on the exact unit string, with a pass-through fallback. -/
def convert_head (value : ℚ) (unit : String) : ℚ :=
  if unit = "meters" then value
  else if unit = "feet" then value * 0.3048
  else value

/-- `hydraulic_power` from `src/app.py` lines 29-31: theoretical hydraulic
power in watts. -/
def hydraulic_power (rho g Q_m3s H_m : ℚ) : ℚ :=
  rho * g * Q_m3s * H_m

/-- `actual_power` from `src/app.py` lines 33-35: actual electrical output
power in watts. -/
def actual_power (P_hydraulic_W eta_turbine eta_generator : ℚ) : ℚ :=
  P_hydraulic_W * eta_turbine * eta_generator

/-- `power_imperial` from `src/app.py` lines 52-55: power via the weight of
water formula, in kilowatts, with the local constant `W = 62.4` lb/ft³. -/
def power_imperial (Q_cusec H_ft eta_turbine eta_generator : ℚ) : ℚ :=
  let W : ℚ := 62.4
  (W * Q_cusec * H_ft * eta_turbine * eta_generator * 746) / (550 * 1000)

/-- `suggest_turbine` from `src/app.py` lines 43-50: turbine suggestion from
net head in meters; Python's chained `50 <= H <= 300` is the conjunction. -/
def suggest_turbine (H : ℚ) : String :=
  if H > 300 then "Pelton Turbine (High Head)"
  else if 50 ≤ H ∧ H ≤ 300 then "Francis Turbine (Medium Head)"
  else "Kaplan / Propeller Turbine (Low Head)"

/-- The design constants `rho, g = 1000, 9.81` from `src/app.py` line 95. -/
def rho : ℚ := 1000

/-- Gravitational acceleration constant from `src/app.py` line 95. -/
def g : ℚ := 9.81

/-- Python's `math.sqrt`: raises `ValueError: math domain error` on a
negative argument, otherwise returns the square root. -/
noncomputable def mathSqrt (x : ℝ) : Except String ℝ :=
  if x < 0 then .error "math domain error" else .ok (Real.sqrt x)

/-- `penstock_diameter` from `src/app.py` lines 37-41: `None` when the
velocity is non-positive, otherwise `math.sqrt((4 * Q_m3s) / (math.pi *
v_mps))`, which raises (propagated as `.error`) when its argument is
negative. -/
noncomputable def penstock_diameter (Q_m3s v_mps : ℝ) :
    Except String (Option ℝ) :=
  if v_mps ≤ 0 then .ok none
  else (mathSqrt ((4 * Q_m3s) / (Real.pi * v_mps))).map some

/-- Helper: the penstock sizer on positive velocity and non-negative
discharge reaches the square root with a non-negative argument. -/
lemma penstock_diameter_eq (Q v : ℝ) (hv : 0 < v) (hQ : 0 ≤ Q) :
    penstock_diameter Q v = .ok (some (Real.sqrt ((4 * Q) / (Real.pi * v)))) := by
  have harg : 0 ≤ (4 * Q) / (Real.pi * v) :=
    div_nonneg (by linarith) (mul_pos Real.pi_pos hv).le
  unfold penstock_diameter mathSqrt
  rw [if_neg (not_le.mpr hv), if_neg (not_lt.mpr harg)]
  rfl

/-- C1 (counterexample): calling `convert_discharge` with the literal unit
tag "cusec" takes the pass-through branch and returns the value unchanged,
not scaled by 0.0283168. -/
theorem convert_discharge_cusec_literal_counterexample :
    convert_discharge 1 "cusec" ≠ 1 * 0.0283168 := by
  unfold convert_discharge
  rw [if_neg (by decide), if_neg (by decide)]
  norm_num

/-- C1 (amended): for every value, `convert_discharge` with the code's
cusec unit tag "cusec (ft³/s)" returns the value times 0.0283168. -/
theorem convert_discharge_cusec (value : ℚ) :
    convert_discharge value "cusec (ft³/s)" = value * 0.0283168 := by
  simp [convert_discharge]

/-- C3: `suggest_turbine` classifies every net head into exactly one of the
three bands: Pelton iff H > 300, Francis iff 50 ≤ H ≤ 300 (both boundary
values included), Kaplan/Propeller iff H < 50 (negative heads included). -/
theorem suggest_turbine_bands (H : ℚ) :
    (suggest_turbine H = "Pelton Turbine (High Head)" ↔ H > 300) ∧
    (suggest_turbine H = "Francis Turbine (Medium Head)" ↔ 50 ≤ H ∧ H ≤ 300) ∧
    (suggest_turbine H = "Kaplan / Propeller Turbine (Low Head)" ↔ H < 50) := by
  unfold suggest_turbine
  split_ifs with h1 h2
  · refine ⟨by simp [h1], by simp; intro h; linarith, by simp; linarith⟩
  · refine ⟨by simp; linarith, by simp [h2], by simp; linarith [h2.1]⟩
  · have h3 : H < 50 := by
      rcases not_and_or.mp h2 with h | h
      · exact lt_of_not_le h
      · exact absurd (le_of_not_lt h1) h
    refine ⟨by simp; linarith, by simp; intro h; linarith, by simp [h3]⟩

/-- C6: `hydraulic_power` is rho * g * Q * H in watts, and with the design
constants rho = 1000, g = 9.81 the inputs Q = 100 m³/s, H = 20 m give
exactly 19,620,000 W. -/
theorem hydraulic_power_spec :
    (∀ r gc Q H : ℚ, hydraulic_power r gc Q H = r * gc * Q * H) ∧
    hydraulic_power rho g 100 20 = 19620000 := by
  refine ⟨fun r gc Q H => rfl, ?_⟩
  norm_num [hydraulic_power, rho, g]

/-- C7: `power_imperial` computes the weight-of-water formula
(62.4 * Q * H * ηₜ * ηg * 746) / (550 * 1000) in kilowatts; its constant
factor is exactly 14547/171875, a path independent of `actual_power`. -/
theorem power_imperial_formula :
    (∀ Q H t gc : ℚ, power_imperial Q H t gc =
      (62.4 * Q * H * t * gc * 746) / (550 * 1000)) ∧
    (∀ Q H t gc : ℚ, power_imperial Q H t gc =
      14547 / 171875 * (Q * H * t * gc)) := by
  refine ⟨fun Q H t gc => rfl, fun Q H t gc => ?_⟩
  show (62.4 * Q * H * t * gc * 746) / (550 * 1000) = _
  norm_num
  ring

/-- C8: with non-negative hydraulic power and efficiencies in (0, 1],
`actual_power` never exceeds the hydraulic power. -/
theorem actual_power_le (P t gc : ℚ) (hP : 0 ≤ P) (ht0 : 0 < t)
    (ht1 : t ≤ 1) (hg0 : 0 < gc) (hg1 : gc ≤ 1) :
    actual_power P t gc ≤ P := by
  unfold actual_power
  have key : 0 ≤ P * (1 - t * gc) :=
    mul_nonneg hP (by linarith [mul_le_one₀ ht1 hg0.le hg1])
  nlinarith [key]

/-- Witness for C8 at P = 100, ηₜ = 1/2, ηg = 9/10. -/
theorem actual_power_le_witness :
    actual_power 100 (1/2) (9/10) ≤ 100 :=
  actual_power_le 100 (1/2) (9/10) (by norm_num) (by norm_num)
    (by norm_num) (by norm_num) (by norm_num)

/-- C9: every unit tag outside the recognized set is passed through
unchanged by all three converters; in particular the tag "m3s" (not a
recognized tag of the code) is an identity conversion for discharge. -/
theorem converters_passthrough :
    (∀ (v : ℚ) (u : String), u ≠ "cusec (ft³/s)" → u ≠ "m³/s" →
       convert_discharge v u = v) ∧
    (∀ (v : ℚ) (u : String), u ≠ "ft/s" → u ≠ "m/s" →
       convert_velocity v u = v) ∧
    (∀ (v : ℚ) (u : String), u ≠ "meters" → u ≠ "feet" →
       convert_head v u = v) ∧
    (∀ Q : ℚ, 0 ≤ Q → convert_discharge Q "m3s" = Q) := by
  refine ⟨?_, ?_, ?_, fun Q _ => by simp [convert_discharge]⟩ <;>
    intro v u h1 h2 <;>
    simp [convert_discharge, convert_velocity, convert_head, h1, h2]

/-- Witness for C9 at the unrecognized tag "x" and at "m3s". -/
theorem converters_passthrough_witness :
    convert_discharge 7 "x" = 7 ∧ convert_velocity 7 "x" = 7 ∧
    convert_head 7 "x" = 7 ∧ convert_discharge 3 "m3s" = 3 :=
  ⟨converters_passthrough.1 7 "x" (by decide) (by decide),
   converters_passthrough.2.1 7 "x" (by decide) (by decide),
   converters_passthrough.2.2.1 7 "x" (by decide) (by decide),
   converters_passthrough.2.2.2 3 (by norm_num)⟩

/-- C2 (counterexample): at discharge Q = 0 and velocity v = 1 the penstock
sizer is defined but returns diameter 0, which is not strictly positive, so
"Q ≥ 0 and v > 0 give a strictly positive diameter" fails. -/
theorem penstock_diameter_zero_counterexample :
    penstock_diameter 0 1 = .ok (some 0) ∧
    ¬ ∃ d, penstock_diameter 0 1 = .ok (some d) ∧ 0 < d := by
  have h : penstock_diameter 0 1 = .ok (some 0) := by
    rw [penstock_diameter_eq 0 1 (by norm_num) le_rfl]
    norm_num
  refine ⟨h, ?_⟩
  rintro ⟨d, hd, hdpos⟩
  rw [h] at hd
  simp only [Except.ok.injEq, Option.some.injEq] at hd
  exact absurd hdpos (by rw [← hd]; exact lt_irrefl 0)

/-- C2 (amended): for every strictly positive discharge Q and strictly
positive velocity v, `penstock_diameter` returns a strictly positive
diameter in meters. -/
theorem penstock_diameter_pos (Q v : ℝ) (hQ : 0 < Q) (hv : 0 < v) :
    ∃ d, penstock_diameter Q v = .ok (some d) ∧ 0 < d := by
  have harg : 0 < (4 * Q) / (Real.pi * v) :=
    div_pos (by linarith) (mul_pos Real.pi_pos hv)
  exact ⟨Real.sqrt ((4 * Q) / (Real.pi * v)),
    penstock_diameter_eq Q v hv hQ.le, Real.sqrt_pos.mpr harg⟩

/-- Witness for C2 (amended) at Q = 1, v = 1. -/
theorem penstock_diameter_pos_witness :
    ∃ d, penstock_diameter 1 1 = .ok (some d) ∧ 0 < d :=
  penstock_diameter_pos 1 1 (by norm_num) (by norm_num)

/-- C4: for every discharge and every non-positive velocity the penstock
sizer returns the absent result (no exception, no number); and on the
documented domain Q ≥ 0 this is the only failure: every positive velocity
yields a numeric diameter. -/
theorem penstock_diameter_absent :
    (∀ Q v : ℝ, v ≤ 0 → penstock_diameter Q v = .ok none) ∧
    (∀ Q v : ℝ, 0 ≤ Q → ¬ v ≤ 0 → ∃ d, penstock_diameter Q v = .ok (some d)) := by
  constructor
  · intro Q v hv
    unfold penstock_diameter
    rw [if_pos hv]
  · intro Q v hQ hv
    exact ⟨Real.sqrt ((4 * Q) / (Real.pi * v)),
      penstock_diameter_eq Q v (not_le.mp hv) hQ⟩

/-- Witness for C4 at (Q, v) = (5, -1) and (5, 1). -/
theorem penstock_diameter_absent_witness :
    penstock_diameter 5 (-1) = .ok none ∧
    ∃ d, penstock_diameter 5 1 = .ok (some d) :=
  ⟨penstock_diameter_absent.1 5 (-1) (by norm_num),
   penstock_diameter_absent.2 5 1 (by norm_num) (by norm_num)⟩

/-- C5: for every Q ≥ 0 and v > 0 the penstock sizer is defined, equals
sqrt(4Q / (π v)), and the returned diameter satisfies the exact round-trip
relation π/4 · D² · v = Q. -/
theorem penstock_diameter_roundtrip (Q v : ℝ) (hQ : 0 ≤ Q) (hv : 0 < v) :
    ∃ d, penstock_diameter Q v = .ok (some d) ∧
      d = Real.sqrt ((4 * Q) / (Real.pi * v)) ∧
      Real.pi / 4 * d ^ 2 * v = Q := by
  have harg : 0 ≤ (4 * Q) / (Real.pi * v) :=
    div_nonneg (by linarith) (mul_pos Real.pi_pos hv).le
  refine ⟨Real.sqrt ((4 * Q) / (Real.pi * v)),
    penstock_diameter_eq Q v hv hQ, rfl, ?_⟩
  rw [Real.sq_sqrt harg]
  have hπ : Real.pi ≠ 0 := Real.pi_ne_zero
  have hv0 : v ≠ 0 := ne_of_gt hv
  field_simp
  ring

/-- Witness for C5 at Q = 1, v = 1. -/
theorem penstock_diameter_roundtrip_witness :
    ∃ d, penstock_diameter 1 1 = .ok (some d) ∧
      d = Real.sqrt ((4 * 1) / (Real.pi * 1)) ∧
      Real.pi / 4 * d ^ 2 * 1 = 1 :=
  penstock_diameter_roundtrip 1 1 (by norm_num) (by norm_num)

/-- C10: for every negative discharge and positive velocity the guard is not
taken and `math.sqrt` receives a negative argument, raising a math domain
error instead of returning a value or the absent result; for Q ≥ 0 the
error branch is unreachable. -/
theorem penstock_diameter_negative_discharge :
    (∀ Q v : ℝ, Q < 0 → 0 < v →
       penstock_diameter Q v = .error "math domain error") ∧
    (∀ Q v : ℝ, 0 ≤ Q → ∀ e, penstock_diameter Q v ≠ .error e) := by
  constructor
  · intro Q v hQ hv
    have harg : (4 * Q) / (Real.pi * v) < 0 :=
      div_neg_of_neg_of_pos (by linarith) (mul_pos Real.pi_pos hv)
    unfold penstock_diameter mathSqrt
    rw [if_neg (not_le.mpr hv), if_pos harg]
    rfl
  · intro Q v hQ e
    by_cases hv : v ≤ 0
    · unfold penstock_diameter
      rw [if_pos hv]
      simp
    · rw [penstock_diameter_eq Q v (not_le.mp hv) hQ]
      simp

/-- Witness for C10 at (Q, v) = (-1, 1) and (2, 1). -/
theorem penstock_diameter_negative_discharge_witness :
    penstock_diameter (-1) 1 = .error "math domain error" ∧
    penstock_diameter 2 1 ≠ .error "boom" :=
  ⟨penstock_diameter_negative_discharge.1 (-1) 1 (by norm_num) (by norm_num),
   penstock_diameter_negative_discharge.2 2 1 (by norm_num) "boom"⟩
